import Mathlib

set_option maxRecDepth 100000

/-!
Verification development for the TEAM-33 conversational pipeline
(`ai_agent/rag.py`, `ai_agent/translation.py`, `ai_agent/agent_controller.py`).

The Python code is shallowly embedded: dictionaries become structures with
`Option` fields for keys that may be absent, external service calls
(transcription, LLM generation, speech synthesis, a pluggable retrieval
backend) become explicit parameters carrying their outcome, an exception
raised by a call is an `Except.error`, and the conversation-history list
mutated by `LLMTranslator` is threaded as explicit state.  Stage
invocations of the orchestrator are recorded in an event trace so that
claims of the form "stage X is (not) invoked with input Y" are statable.
-/

namespace Team33

/-- One message of the conversation history, as appended by
`LLMTranslator._add_to_history` (a dict with `role` and `content` keys). -/
structure Turn where
  role : String
  content : String
deriving DecidableEq

/-- One entry of the local knowledge base built by
`RAG._init_local_knowledge_base` (keys `id`, `domain`, `query`, `content`). -/
structure KBDoc where
  id : Nat
  domain : String
  query : String
  content : String
deriving DecidableEq

/-- A retrieval result entry as built by `RAG._retrieve_from_local`
(keys `id`, `content`, `score`). -/
structure RDoc where
  id : Nat
  content : String
  score : Nat
deriving DecidableEq

/-- Python `str.lower()`, written by structural recursion over the character
data so that concrete instances reduce in the kernel (over the ASCII texts of
this code base it agrees with full Unicode lowering). -/
def strLower (s : String) : String := ⟨s.data.map Char.toLower⟩

/-- Helper for `pySplitWs`: the maximal whitespace-free runs of a character
list (`acc` holds the current run, reversed). -/
def splitWsChars : List Char → List Char → List String
  | [], acc => if acc.isEmpty then [] else [⟨acc.reverse⟩]
  | c :: cs, acc =>
    if c.isWhitespace then
      if acc.isEmpty then splitWsChars cs []
      else ⟨acc.reverse⟩ :: splitWsChars cs []
    else splitWsChars cs (c :: acc)

/-- Python `str.split()` with no argument: split on whitespace runs and drop
the empty pieces. -/
def pySplitWs (s : String) : List String := splitWsChars s.data []

/-- Python substring containment `needle in hay`. -/
def strContains (hay needle : String) : Bool :=
  decide (needle.data <:+: hay.data)

/-- The scoring loop of `RAG._retrieve_from_local`: starting from 0, add 1 for
each whitespace-split word of the lowered query that occurs in the lowered
document text. -/
def docScore (query_lower doc_text : String) : Nat :=
  (pySplitWs query_lower).foldl
    (fun score word => if strContains doc_text word then score + 1 else score) 0

/-- The five-entry local knowledge base of `RAG._init_local_knowledge_base`. -/
def knowledge_base : List KBDoc :=
  [ ⟨1, "healthcare", "fever symptoms",
      "High temperature, body aches, fatigue. Drink water, rest, consult doctor if >103°F"⟩,
    ⟨2, "healthcare", "sore throat",
      "Throat pain, difficulty swallowing. Gargle salt water, drink warm tea, rest voice"⟩,
    ⟨3, "healthcare", "headache relief",
      "Pain in head/temples. Rest in quiet dark room, drink water, apply cold compress"⟩,
    ⟨4, "emergency", "chest pain",
      "EMERGENCY: Call ambulance immediately. Chest pain can indicate heart problem."⟩,
    ⟨5, "nutrition", "healthy diet",
      "Balanced diet: fruits, vegetables, whole grains, lean proteins, healthy fats"⟩ ]

/-- The per-document body of the loop in `RAG._retrieve_from_local`: score the
document against the query and keep it only when the score is positive. -/
def scored (query : String) (doc : KBDoc) : Option RDoc :=
  let doc_text := strLower (doc.query ++ " " ++ doc.content)
  let score := docScore (strLower query) doc_text
  if 0 < score then some ⟨doc.id, doc.content, score⟩ else none

/-- Ordering used by `results.sort(key=lambda x: x["score"], reverse=True)`:
descending score. -/
def scoreDescOrder (a b : RDoc) : Prop := b.score ≤ a.score

instance : DecidableRel scoreDescOrder :=
  fun a b => decidable_of_iff (b.score ≤ a.score) Iff.rfl

/-- Python `list.sort(key=..., reverse=True)` is a stable sort; it is modelled
by the stable insertion sort with the descending-score order. -/
def sortByScoreDesc (l : List RDoc) : List RDoc :=
  List.insertionSort scoreDescOrder l

/-- `RAG._retrieve_from_local`: score every knowledge-base document, drop the
zero-score ones, stably sort by descending score and return the first
`top_k`. -/
def retrieve_from_local (kb : List KBDoc) (query : String) (top_k : Nat) : List RDoc :=
  (sortByScoreDesc (kb.filterMap (scored query))).take top_k

/-- `RAG.retrieve_context`: run the selected retrieval backend inside a
`try/except` that turns any raised exception into the empty result list. -/
def retrieve_context (backend : String → Nat → Except String (List RDoc))
    (query : String) (top_k : Nat) : List RDoc :=
  match backend query top_k with
  | Except.ok docs => docs
  | Except.error _ => []

/-- The local (non-Pinecone) backend: `_retrieve_from_local` never raises. -/
def localBackend (kb : List KBDoc) : String → Nat → Except String (List RDoc) :=
  fun query top_k => Except.ok (retrieve_from_local kb query top_k)

/-- `RAG.augment_prompt`: retrieve context for the query with `top_k = 3`; if
nothing came back return the LLM input unchanged, otherwise prepend the
retrieved snippets. -/
def augment_prompt (backend : String → Nat → Except String (List RDoc))
    (query llm_input : String) : String :=
  let context_docs := retrieve_context backend query 3
  if context_docs.isEmpty then llm_input
  else
    let context_str :=
      context_docs.foldl (fun s doc => s ++ "- " ++ doc.content ++ "\n") "Relevant Context:\n"
    context_str ++ "\n\nBased on the above context, answer: " ++ llm_input

/-- The fixed keyword list of `RAG._is_emergency`. -/
def emergency_keywords : List String :=
  ["chest pain", "difficulty breathing", "unconscious", "severe bleeding"]

/-- `RAG._is_emergency`: case-insensitive substring match of the symptom
against the fixed emergency keyword list. -/
def is_emergency_kw (symptom : String) : Bool :=
  emergency_keywords.any (fun keyword => strContains (strLower symptom) keyword)

/-- The healthcare-context record returned by `RAG.get_healthcare_context`
(the `recommendations` key is absent in the no-documents branch). -/
structure HealthContext where
  symptom : String
  medical_context : Option String
  recommendations : Option (List String)
  emergency : Bool
deriving DecidableEq

/-- `RAG._get_healthcare_recommendations` (a fixed list). -/
def get_healthcare_recommendations (_symptom : String) : List String :=
  [ "Consult with a licensed healthcare provider",
    "Monitor symptoms for any changes",
    "Stay hydrated and get adequate rest" ]

/-- `RAG.get_healthcare_context`: retrieve with `top_k = 2`; with documents,
report the first document's content, otherwise a fixed fallback string.  The
emergency flag is computed from the symptom in both branches. -/
def get_healthcare_context (backend : String → Nat → Except String (List RDoc))
    (symptom : String) : HealthContext :=
  let context_docs := retrieve_context backend symptom 2
  match context_docs with
  | doc :: _ =>
      ⟨symptom, some doc.content, some (get_healthcare_recommendations symptom),
        is_emergency_kw symptom⟩
  | [] =>
      ⟨symptom, some "Consult with healthcare professional", none, is_emergency_kw symptom⟩

/-- Python slice `l[-k:]` (as used for trimming and for the model-input window
`self.conversation_history[-self.max_history:]`).  Note `l[-0:]` is the whole
list. -/
def lastSlice (k : Nat) (l : List Turn) : List Turn :=
  if k = 0 then l else l.drop (l.length - k)

/-- `LLMTranslator._add_to_history` with window size `W`
(`config.CONTEXT_WINDOW_SIZE`, a configured constant not present in the
sources): append the turn, then if the stored length exceeds `W * 2` trim to
the last `W` turns. -/
def add_to_history (W : Nat) (hist : List Turn) (role content : String) : List Turn :=
  let h := hist ++ [⟨role, content⟩]
  if h.length > W * 2 then lastSlice W h else h

/-- The history window passed to the model by `LLMTranslator._gpt_response`:
the last `W` retained turns. -/
def historyWindow (W : Nat) (hist : List Turn) : List Turn :=
  lastSlice W hist

/-- `LLMTranslator.clear_history`. -/
def clear_history : List Turn := []

/-- The dict returned by `LLMTranslator.translate_and_respond`
(on error only `original_text`, `response` (empty) and `error` are present). -/
structure TRResult where
  original_text : String
  source_language : Option String
  target_language : Option String
  response : String
  model : Option String
  error : Option String
deriving DecidableEq

/-- `LLMTranslator.translate_and_respond`: append the user turn, run the
generation backend (whose outcome — reply or raised exception — is the `gen`
parameter), and on success append the assistant turn; a raised exception is
caught and reported as an error dict with an empty `response`. -/
def translate_and_respond (W : Nat) (modelName : String) (gen : Except String String)
    (user_text source_language target_language : String) (hist : List Turn) :
    TRResult × List Turn :=
  let hist1 := add_to_history W hist "user" user_text
  match gen with
  | Except.ok response =>
      (⟨user_text, some source_language, some target_language, response,
          some modelName, none⟩,
        add_to_history W hist1 "assistant" response)
  | Except.error e =>
      (⟨user_text, none, none, "", none, some e⟩, hist1)

/-- The dict returned by `LLMTranslator.healthcare_response`
(on error only `error` and an empty `assistant_response` are present). -/
structure HCResp where
  medical_query : Option String
  assistant_response : String
  disclaimer : Option String
  model : Option String
  error : Option String
deriving DecidableEq

/-- `LLMTranslator.healthcare_response`: append the user turn, run the
generation backend, and on success append the assistant turn and attach the
fixed disclaimer; a raised exception is caught and reported without a
disclaimer. -/
def healthcare_response (W : Nat) (modelName : String) (gen : Except String String)
    (user_text : String) (hist : List Turn) : HCResp × List Turn :=
  let hist1 := add_to_history W hist "user" user_text
  match gen with
  | Except.ok response =>
      (⟨some user_text, response,
          some "For medical emergencies, contact emergency services immediately.",
          some modelName, none⟩,
        add_to_history W hist1 "assistant" response)
  | Except.error e =>
      (⟨none, "", none, none, some e⟩, hist1)

/-- The transcription dict returned by `WhisperASR.transcribe_audio_file`:
both the success and the caught-exception shape carry `text` and `language`
(the latter with empty `text`), plus an `error` key on failure. -/
structure ASRResult where
  text : String
  language : String
  error : Option String
deriving DecidableEq

/-- Outcome of `TextToSpeech.synthesize`: `AzureTTS.synthesize_text` returns
either a `success: True` dict or a `success: False` dict carrying an `error`
message (exceptions are caught inside). -/
inductive TTSOutcome
  | success
  | failure (error_msg : String)
deriving DecidableEq

/-- Stage invocations of the orchestrator, with the input each stage call
received. -/
inductive StageEv
  | transcription (audio_path : String)
  | retrieval (query : String)
  | generation (input : String)
  | synthesis (text : String)
deriving DecidableEq

/-- The result dict of `AIAgent.process_audio_file`: the two error shapes
carry `error` plus the failing stage's diagnostic payload under `details`;
the success shape carries the conversation fields, with `output_audio` and
`tts_error` only in the corresponding synthesis branches. -/
structure PipelineResult where
  error : Option String := none
  details_asr : Option ASRResult := none
  details_llm : Option TRResult := none
  input_audio : Option String := none
  transcribed_text : Option String := none
  source_language : Option String := none
  target_language : Option String := none
  ai_response : Option String := none
  conversation_id : Option String := none
  output_audio : Option String := none
  tts_error : Option String := none
deriving DecidableEq

/-- `AIAgent.process_audio_file`: transcribe (fail fast on empty text), then
optionally augment via RAG, generate (fail on empty response), then
optionally synthesize — a synthesis failure only adds `tts_error`.  The
outcome of each external call is a parameter; the conversation history and
the trace of stage invocations are returned alongside the result. -/
def process_audio_file (W : Nat) (use_rag : Bool) (modelName : String)
    (backend : String → Nat → Except String (List RDoc))
    (gen : Except String String) (tts : TTSOutcome) (session_id : String)
    (audio_file_path : String) (asr_result : ASRResult)
    (target_language : String) (use_tts : Bool) (hist : List Turn) :
    PipelineResult × List Turn × List StageEv :=
  let trace0 := [StageEv.transcription audio_file_path]
  if asr_result.text = "" then
    ({ error := some "Failed to transcribe audio", details_asr := some asr_result },
      hist, trace0)
  else
    let user_text := asr_result.text
    let source_language := asr_result.language
    let augmented_prompt :=
      match use_rag with
      | true => augment_prompt backend user_text user_text
      | false => user_text
    let trace1 :=
      match use_rag with
      | true => trace0 ++ [StageEv.retrieval user_text]
      | false => trace0
    let out := translate_and_respond W modelName gen augmented_prompt
      source_language target_language hist
    let llm_result := out.1
    let hist1 := out.2
    let trace2 := trace1 ++ [StageEv.generation augmented_prompt]
    if llm_result.response = "" then
      ({ error := some "Failed to generate response", details_llm := some llm_result },
        hist1, trace2)
    else
      let result : PipelineResult :=
        { input_audio := some audio_file_path
          transcribed_text := some user_text
          source_language := some source_language
          target_language := some target_language
          ai_response := some llm_result.response
          conversation_id := some session_id }
      match use_tts with
      | true =>
        let trace3 := trace2 ++ [StageEv.synthesis llm_result.response]
        match tts with
        | TTSOutcome.success =>
            ({ result with output_audio := some ("response_" ++ session_id ++ ".wav") },
              hist1, trace3)
        | TTSOutcome.failure e =>
            ({ result with tts_error := some e }, hist1, trace3)
      | false =>
        (result, hist1, trace2)

/-- The result dict of `AIAgent.healthcare_consultation`: the transcription
error shape has only `error`; the success shape always carries
`patient_statement`, `medical_context` (the whole healthcare-context record,
or none with RAG disabled), `assistant_response`, `disclaimer` and
`is_emergency`, and `emergency_alert` exactly when the flag is set. -/
structure HCConsultResult where
  error : Option String := none
  patient_statement : Option String := none
  medical_context : Option HealthContext := none
  assistant_response : Option String := none
  disclaimer : Option String := none
  is_emergency : Option Bool := none
  emergency_alert : Option String := none
deriving DecidableEq

/-- `AIAgent.healthcare_consultation`: fail fast on empty transcription,
fetch healthcare context when RAG is enabled, call the healthcare response
generator, and attach the fixed emergency alert exactly when the context's
emergency flag is set. -/
def healthcare_consultation (W : Nat) (use_rag : Bool) (modelName : String)
    (backend : String → Nat → Except String (List RDoc))
    (gen : Except String String) (asr_result : ASRResult) (hist : List Turn) :
    HCConsultResult × List Turn :=
  let patient_statement := asr_result.text
  if patient_statement = "" then
    ({ error := some "Failed to transcribe patient statement" }, hist)
  else
    let health_context : Option HealthContext :=
      match use_rag with
      | true => some (get_healthcare_context backend patient_statement)
      | false => none
    let out := healthcare_response W modelName gen patient_statement hist
    let healthcare_result := out.1
    let is_emerg := match health_context with
      | some hc => hc.emergency
      | none => false
    ({ patient_statement := some patient_statement
       medical_context := health_context
       assistant_response := some healthcare_result.assistant_response
       disclaimer := healthcare_result.disclaimer
       is_emergency := some is_emerg
       emergency_alert :=
         if is_emerg then some "CONTACT EMERGENCY SERVICES IMMEDIATELY" else none },
      out.2)

/-! ### Helper lemmas about the history window and trimming -/

theorem lastSlice_suffix (k : Nat) (l : List Turn) : lastSlice k l <:+ l := by
  unfold lastSlice
  split
  · exact List.suffix_refl l
  · exact List.drop_suffix _ l

theorem length_lastSlice (k : Nat) (hk : k ≠ 0) (l : List Turn) :
    (lastSlice k l).length = min k l.length := by
  unfold lastSlice
  rw [if_neg hk, List.length_drop]
  omega

theorem lastSlice_of_le (k : Nat) (l : List Turn) (h : l.length ≤ k) :
    lastSlice k l = l := by
  unfold lastSlice
  split
  · rfl
  · have : l.length - k = 0 := by omega
    rw [this, List.drop_zero]

theorem getLast?_lastSlice (k : Nat) (hk : 1 ≤ k) (l : List Turn) (hl : l ≠ []) :
    (lastSlice k l).getLast? = l.getLast? := by
  obtain ⟨t, ht⟩ := lastSlice_suffix k l
  have hlen : 0 < (lastSlice k l).length := by
    rw [length_lastSlice k (by omega) l]
    have : 0 < l.length := List.length_pos.mpr hl
    omega
  have hne : lastSlice k l ≠ [] := List.length_pos.mp hlen
  calc (lastSlice k l).getLast? = (t ++ lastSlice k l).getLast? :=
        (List.getLast?_append_of_ne_nil t hne).symm
    _ = l.getLast? := by rw [ht]

theorem add_to_history_of_le (W : Nat) (hist : List Turn) (role content : String)
    (h : hist.length + 1 ≤ W * 2) :
    add_to_history W hist role content = hist ++ [⟨role, content⟩] := by
  unfold add_to_history
  rw [if_neg]
  simp only [List.length_append, List.length_singleton]
  omega

theorem add_to_history_of_gt (W : Nat) (hist : List Turn) (role content : String)
    (h : W * 2 < hist.length + 1) :
    add_to_history W hist role content = lastSlice W (hist ++ [⟨role, content⟩]) := by
  unfold add_to_history
  rw [if_pos]
  simp only [List.length_append, List.length_singleton]
  omega

theorem length_add_to_history_le (W : Nat) (hW : 1 ≤ W) (hist : List Turn)
    (role content : String) :
    (add_to_history W hist role content).length ≤ W * 2 := by
  by_cases h : W * 2 < hist.length + 1
  · rw [add_to_history_of_gt W hist role content h,
      length_lastSlice W (by omega)]
    omega
  · rw [add_to_history_of_le W hist role content (by omega)]
    simp only [List.length_append, List.length_singleton]
    omega

theorem getLast?_add_to_history (W : Nat) (hW : 1 ≤ W) (hist : List Turn)
    (role content : String) :
    (add_to_history W hist role content).getLast? = some ⟨role, content⟩ := by
  by_cases h : W * 2 < hist.length + 1
  · rw [add_to_history_of_gt W hist role content h,
      getLast?_lastSlice W hW _ (by simp), List.getLast?_concat]
  · rw [add_to_history_of_le W hist role content (by omega), List.getLast?_concat]

theorem foldl_add_to_history_no_trim (W : Nat) (ts : List Turn) :
    ∀ hist : List Turn, hist.length + ts.length ≤ W * 2 →
      ts.foldl (fun h t => add_to_history W h t.role t.content) hist = hist ++ ts := by
  induction ts with
  | nil => intro hist _; simp
  | cons t ts ih =>
      intro hist hlen
      simp only [List.foldl_cons]
      rw [add_to_history_of_le W hist t.role t.content
        (by simp only [List.length_cons] at hlen; omega)]
      have : (⟨t.role, t.content⟩ : Turn) = t := rfl
      rw [this, ih (hist ++ [t]) (by simp at hlen ⊢; omega)]
      simp

theorem length_foldl_add_to_history (W : Nat) (hW : 1 ≤ W) (ts : List Turn) :
    ∀ hist : List Turn, hist.length ≤ W * 2 →
      (ts.foldl (fun h t => add_to_history W h t.role t.content) hist).length ≤ W * 2 := by
  induction ts with
  | nil => intro hist h0; simpa using h0
  | cons t ts ih =>
      intro hist _
      simp only [List.foldl_cons]
      exact ih _ (length_add_to_history_le W hW hist t.role t.content)

/-! ### Claim theorems about the conversation context manager -/

/-- C6: the retained history never exceeds `2W` turns; each append adds one
turn at the tail and, when the stored length exceeds `2W`, trims to the most
recent `W` turns with insertion order preserved (the trimmed history is a
suffix); the window read returns the most recent `W` retained turns in
original order (a suffix of length `min W length`); appending `W + 1` turns
to the empty history then reading the window yields exactly the last `W` of
those turns; clearing then reading the window yields the empty sequence. -/
theorem C6_context_window_bound (W : Nat) (hW : 1 ≤ W) :
    (∀ (hist : List Turn) (ts : List Turn), hist.length ≤ W * 2 →
        (ts.foldl (fun h t => add_to_history W h t.role t.content) hist).length ≤ W * 2)
    ∧ (∀ (hist : List Turn) (role content : String), hist.length + 1 ≤ W * 2 →
        add_to_history W hist role content = hist ++ [⟨role, content⟩])
    ∧ (∀ (hist : List Turn) (role content : String), W * 2 < hist.length + 1 →
        add_to_history W hist role content = lastSlice W (hist ++ [⟨role, content⟩])
        ∧ lastSlice W (hist ++ [⟨role, content⟩]) <:+ hist ++ [⟨role, content⟩]
        ∧ (lastSlice W (hist ++ [⟨role, content⟩])).length = W)
    ∧ (∀ hist : List Turn, historyWindow W hist <:+ hist
        ∧ (historyWindow W hist).length = min W hist.length)
    ∧ (∀ ts : List Turn, ts.length = W + 1 →
        ts.foldl (fun h t => add_to_history W h t.role t.content) [] = ts
        ∧ historyWindow W
            (ts.foldl (fun h t => add_to_history W h t.role t.content) []) = ts.drop 1)
    ∧ historyWindow W clear_history = [] := by
  refine ⟨?_, ?_, ?_, ?_, ?_, ?_⟩
  · intro hist ts h0
    exact length_foldl_add_to_history W hW ts hist h0
  · intro hist role content h
    exact add_to_history_of_le W hist role content h
  · intro hist role content h
    refine ⟨add_to_history_of_gt W hist role content h, lastSlice_suffix _ _, ?_⟩
    rw [length_lastSlice W (by omega)]
    simp only [List.length_append, List.length_singleton]
    omega
  · intro hist
    exact ⟨lastSlice_suffix W hist, length_lastSlice W (by omega) hist⟩
  · intro ts hts
    have hfold : ts.foldl (fun h t => add_to_history W h t.role t.content) [] = ts := by
      have := foldl_add_to_history_no_trim W ts [] (by simp [hts]; omega)
      simpa using this
    refine ⟨hfold, ?_⟩
    rw [hfold]
    unfold historyWindow lastSlice
    rw [if_neg (by omega), hts]
    congr 1
    omega
  · unfold historyWindow clear_history lastSlice
    split <;> simp

/-- Witness for C6 at `W = 2`: appending three turns to the empty history
then reading the window returns the last two turns, and the bound holds. -/
theorem C6_context_window_bound_witness :
    (([⟨"user", "a"⟩, ⟨"assistant", "b"⟩, ⟨"user", "c"⟩] : List Turn).foldl
        (fun h t => add_to_history 2 h t.role t.content) []).length ≤ 2 * 2
    ∧ historyWindow 2
        (([⟨"user", "a"⟩, ⟨"assistant", "b"⟩, ⟨"user", "c"⟩] : List Turn).foldl
          (fun h t => add_to_history 2 h t.role t.content) [])
        = [⟨"assistant", "b"⟩, ⟨"user", "c"⟩] := by
  have h := C6_context_window_bound 2 (by omega)
  refine ⟨h.1 [] _ (by simp), ?_⟩
  have h5 := h.2.2.2.2.1 [⟨"user", "a"⟩, ⟨"assistant", "b"⟩, ⟨"user", "c"⟩] (by simp)
  rw [h5.2]
  rfl

/-- C5: on a successful generation, `translate_and_respond` appends exactly
two turns to the history — the user turn first, then the assistant turn —
i.e. the new history is the result of those two appends (and, when no trim
triggers, is the old history followed by exactly those two turns); the
pipeline's resulting history equals that two-append value for every
synthesis outcome and whether or not synthesis was requested. -/
theorem C5_success_appends_two_turns (W : Nat) (modelName user_text source_language
    target_language resp : String) (hist : List Turn) :
    (translate_and_respond W modelName (Except.ok resp) user_text source_language
        target_language hist).2
      = add_to_history W (add_to_history W hist "user" user_text) "assistant" resp
    ∧ (hist.length + 2 ≤ W * 2 →
        (translate_and_respond W modelName (Except.ok resp) user_text source_language
            target_language hist).2
          = hist ++ [⟨"user", user_text⟩, ⟨"assistant", resp⟩])
    ∧ (∀ (use_rag : Bool) (backend : String → Nat → Except String (List RDoc))
        (tts : TTSOutcome) (session_id audio_path tl2 : String) (use_tts : Bool)
        (asr : ASRResult), asr.text ≠ "" →
        (process_audio_file W use_rag modelName backend (Except.ok resp) tts session_id
            audio_path asr tl2 use_tts hist).2.1
          = add_to_history W (add_to_history W hist "user"
              (if use_rag then augment_prompt backend asr.text asr.text else asr.text))
              "assistant" resp) := by
  refine ⟨rfl, ?_, ?_⟩
  · intro h
    show add_to_history W (add_to_history W hist "user" user_text) "assistant" resp = _
    rw [add_to_history_of_le W hist "user" user_text (by omega)]
    rw [add_to_history_of_le W _ "assistant" resp
      (by simp only [List.length_append, List.length_singleton]; omega)]
    simp
  · intro use_rag backend tts session_id audio_path tl2 use_tts asr hasr
    cases use_rag <;> cases use_tts <;> cases tts <;>
      (unfold process_audio_file; rw [if_neg hasr]; dsimp only; split <;> rfl)

/-- Witness for C5 at concrete inputs. -/
theorem C5_success_appends_two_turns_witness :
    (translate_and_respond 3 "gpt-4" (Except.ok "Hi there") "hello" "en" "en" []).2
      = [⟨"user", "hello"⟩, ⟨"assistant", "Hi there"⟩] := by
  have h := C5_success_appends_two_turns 3 "gpt-4" "hello" "en" "en" "Hi there" []
  have := h.2.1 (by simp)
  simpa using this

/-- C4: when the transcription service returns empty text, the pipeline
returns the transcription-failure error result carrying the service's
diagnostic payload, leaves the history untouched, and invokes neither
retrieval, generation nor synthesis. -/
theorem C4_transcription_failure_fails_fast (W : Nat) (use_rag : Bool)
    (modelName : String) (backend : String → Nat → Except String (List RDoc))
    (gen : Except String String) (tts : TTSOutcome)
    (session_id audio_path target_language : String) (use_tts : Bool)
    (hist : List Turn) (asr : ASRResult) (h : asr.text = "") :
    (process_audio_file W use_rag modelName backend gen tts session_id audio_path asr
        target_language use_tts hist).1
      = { error := some "Failed to transcribe audio", details_asr := some asr }
    ∧ (process_audio_file W use_rag modelName backend gen tts session_id audio_path asr
        target_language use_tts hist).2.1 = hist
    ∧ (process_audio_file W use_rag modelName backend gen tts session_id audio_path asr
        target_language use_tts hist).2.2 = [StageEv.transcription audio_path]
    ∧ (∀ q, StageEv.retrieval q ∉ (process_audio_file W use_rag modelName backend gen tts
        session_id audio_path asr target_language use_tts hist).2.2)
    ∧ (∀ q, StageEv.generation q ∉ (process_audio_file W use_rag modelName backend gen tts
        session_id audio_path asr target_language use_tts hist).2.2)
    ∧ (∀ q, StageEv.synthesis q ∉ (process_audio_file W use_rag modelName backend gen tts
        session_id audio_path asr target_language use_tts hist).2.2) := by
  unfold process_audio_file
  rw [if_pos h]
  refine ⟨rfl, rfl, rfl, ?_, ?_, ?_⟩ <;> intro q <;> simp

/-- Witness for C4 at a concrete empty transcription. -/
theorem C4_transcription_failure_fails_fast_witness :
    (process_audio_file 3 true "gpt-4" (localBackend knowledge_base) (Except.ok "r")
        TTSOutcome.success "abcd1234" "in.wav" ⟨"", "unknown", some "File not found"⟩
        "en" true []).1
      = { error := some "Failed to transcribe audio",
          details_asr := some ⟨"", "unknown", some "File not found"⟩ }
    ∧ (process_audio_file 3 true "gpt-4" (localBackend knowledge_base) (Except.ok "r")
        TTSOutcome.success "abcd1234" "in.wav" ⟨"", "unknown", some "File not found"⟩
        "en" true []).2.2 = [StageEv.transcription "in.wav"] := by
  have h := C4_transcription_failure_fails_fast 3 true "gpt-4" (localBackend knowledge_base)
    (Except.ok "r") TTSOutcome.success "abcd1234" "in.wav" "en" true []
    ⟨"", "unknown", some "File not found"⟩ rfl
  exact ⟨h.1, h.2.2.1⟩

/-- C10 counterexample: at window size `W = 1` with a retained history of two
turns, a generation failure appends the user turn and then trims, so the
history shrinks to one turn instead of growing by exactly one. -/
theorem C10_counterexample :
    (translate_and_respond 1 "gpt-4" (Except.error "boom") "c" "en" "en"
        [⟨"user", "a"⟩, ⟨"assistant", "b"⟩]).1.response = ""
    ∧ (translate_and_respond 1 "gpt-4" (Except.error "boom") "c" "en" "en"
        [⟨"user", "a"⟩, ⟨"assistant", "b"⟩]).1.error = some "boom"
    ∧ (translate_and_respond 1 "gpt-4" (Except.error "boom") "c" "en" "en"
        [⟨"user", "a"⟩, ⟨"assistant", "b"⟩]).2 = [⟨"user", "c"⟩]
    ∧ ¬ ((translate_and_respond 1 "gpt-4" (Except.error "boom") "c" "en" "en"
        [⟨"user", "a"⟩, ⟨"assistant", "b"⟩]).2.length
          = ([⟨"user", "a"⟩, ⟨"assistant", "b"⟩] : List Turn).length + 1) := by
  decide

/-- C10 (amended): when the generation backend raises, the exception is not
propagated — the call returns an empty `response` together with the error —
and exactly one append (the user turn) is performed and not rolled back: the
user turn is the tail of the resulting history, and the stored length grows
by exactly one unless the append overflows `2W`, in which case the history is
trimmed to the most recent `W` turns (still ending with the user turn). -/
theorem C10_generation_error_state (W : Nat) (hW : 1 ≤ W)
    (modelName user_text sl tl e : String) (hist : List Turn) :
    (translate_and_respond W modelName (Except.error e) user_text sl tl hist).1
      = ⟨user_text, none, none, "", none, some e⟩
    ∧ (translate_and_respond W modelName (Except.error e) user_text sl tl hist).2
      = add_to_history W hist "user" user_text
    ∧ (translate_and_respond W modelName (Except.error e) user_text sl tl hist).2.getLast?
      = some ⟨"user", user_text⟩
    ∧ (hist.length + 1 ≤ W * 2 →
        (translate_and_respond W modelName (Except.error e) user_text sl tl hist).2
          = hist ++ [⟨"user", user_text⟩]) := by
  refine ⟨rfl, rfl, ?_, ?_⟩
  · exact getLast?_add_to_history W hW hist "user" user_text
  · intro h
    exact add_to_history_of_le W hist "user" user_text h

/-- Witness for C10's amended statement at concrete inputs. -/
theorem C10_generation_error_state_witness :
    (translate_and_respond 2 "gpt-4" (Except.error "api down") "hello" "en" "en" []).1
      = ⟨"hello", none, none, "", none, some "api down"⟩
    ∧ (translate_and_respond 2 "gpt-4" (Except.error "api down") "hello" "en" "en" []).2
      = [⟨"user", "hello"⟩] := by
  have h := C10_generation_error_state 2 (by omega) "gpt-4" "hello" "en" "en" "api down" []
  exact ⟨h.1, by simpa using h.2.2.2 (by simp)⟩

/-! ### Helper lemmas about the healthcare flow -/

theorem healthcare_consultation_success (W : Nat) (modelName : String)
    (backend : String → Nat → Except String (List RDoc)) (gen : Except String String)
    (asr : ASRResult) (hist : List Turn) (htext : asr.text ≠ "") :
    healthcare_consultation W true modelName backend gen asr hist
      = ({ patient_statement := some asr.text
           medical_context := some (get_healthcare_context backend asr.text)
           assistant_response :=
             some (healthcare_response W modelName gen asr.text hist).1.assistant_response
           disclaimer := (healthcare_response W modelName gen asr.text hist).1.disclaimer
           is_emergency := some (get_healthcare_context backend asr.text).emergency
           emergency_alert :=
             if (get_healthcare_context backend asr.text).emergency
             then some "CONTACT EMERGENCY SERVICES IMMEDIATELY" else none },
         (healthcare_response W modelName gen asr.text hist).2) := by
  unfold healthcare_consultation
  rw [if_neg htext]

theorem get_healthcare_context_of_empty (backend : String → Nat → Except String (List RDoc))
    (symptom : String) (hret : retrieve_context backend symptom 2 = []) :
    get_healthcare_context backend symptom
      = ⟨symptom, some "Consult with healthcare professional", none,
          is_emergency_kw symptom⟩ := by
  unfold get_healthcare_context
  rw [hret]

theorem emergency_get_healthcare_context (backend : String → Nat → Except String (List RDoc))
    (s : String) :
    (get_healthcare_context backend s).emergency = is_emergency_kw s := by
  unfold get_healthcare_context
  dsimp only
  split <;> rfl

/-! ### Claim theorems about the healthcare flow -/

/-- C1 counterexample: for the symptom "unconscious" the retrieval stage
matches no documents, yet the healthcare result's `medical_context` is not
null (it is the fallback context record) and `is_emergency` is true, not
false — the claimed degradation to `medical_context = null`,
`is_emergency = false` does not hold. -/
theorem C1_counterexample :
    retrieve_context (localBackend knowledge_base) "unconscious" 2 = []
    ∧ ¬ ((healthcare_consultation 4 true "gpt-4" (localBackend knowledge_base)
        (Except.ok "Please seek help") ⟨"unconscious", "en", none⟩ []).1.medical_context
          = none)
    ∧ ¬ ((healthcare_consultation 4 true "gpt-4" (localBackend knowledge_base)
        (Except.ok "Please seek help") ⟨"unconscious", "en", none⟩ []).1.is_emergency
          = some false)
    ∧ (healthcare_consultation 4 true "gpt-4" (localBackend knowledge_base)
        (Except.ok "Please seek help") ⟨"unconscious", "en", none⟩ []).1.is_emergency
          = some true := by
  decide

/-- C1 (amended): when the retrieval stage fails (raises or matches no
documents) in the healthcare flow, the pipeline still returns a successful
result (no error), with `medical_context` set to the fallback context record
(whose inner `medical_context` field is the fixed string "Consult with
healthcare professional" and which has no recommendations), and with
`is_emergency` still computed by keyword matching on the symptom — not
forced to false. -/
theorem C1_retrieval_failure_degrades (W : Nat) (modelName : String)
    (backend : String → Nat → Except String (List RDoc)) (gen : Except String String)
    (asr : ASRResult) (hist : List Turn)
    (htext : asr.text ≠ "") (hret : retrieve_context backend asr.text 2 = []) :
    (healthcare_consultation W true modelName backend gen asr hist).1.error = none
    ∧ (healthcare_consultation W true modelName backend gen asr hist).1.medical_context
        = some ⟨asr.text, some "Consult with healthcare professional", none,
            is_emergency_kw asr.text⟩
    ∧ (healthcare_consultation W true modelName backend gen asr hist).1.is_emergency
        = some (is_emergency_kw asr.text)
    ∧ (healthcare_consultation W true modelName backend gen asr hist).1.patient_statement
        = some asr.text := by
  have hctx := get_healthcare_context_of_empty backend asr.text hret
  rw [healthcare_consultation_success W modelName backend gen asr hist htext]
  refine ⟨rfl, ?_, ?_, rfl⟩ <;> simp [hctx]

/-- Witness for C1's amended statement: a raising backend with symptom
"hello". -/
theorem C1_retrieval_failure_degrades_witness :
    (healthcare_consultation 3 true "gpt-4" (fun _ _ => Except.error "down")
        (Except.ok "x") ⟨"hello", "en", none⟩ []).1.error = none
    ∧ (healthcare_consultation 3 true "gpt-4" (fun _ _ => Except.error "down")
        (Except.ok "x") ⟨"hello", "en", none⟩ []).1.medical_context
        = some ⟨"hello", some "Consult with healthcare professional", none,
            is_emergency_kw "hello"⟩
    ∧ (healthcare_consultation 3 true "gpt-4" (fun _ _ => Except.error "down")
        (Except.ok "x") ⟨"hello", "en", none⟩ []).1.is_emergency
        = some (is_emergency_kw "hello") := by
  have h := C1_retrieval_failure_degrades 3 "gpt-4" (fun _ _ => Except.error "down")
    (Except.ok "x") ⟨"hello", "en", none⟩ [] (by decide) rfl
  exact ⟨h.1, h.2.1, h.2.2.1⟩

/-- C2 counterexample: after a successful transcription, when the generation
stage raises, the healthcare result's `disclaimer` is null — the disclaimer
is not carried regardless of the generation outcome. -/
theorem C2_counterexample :
    (healthcare_consultation 4 true "gpt-4" (localBackend knowledge_base)
        (Except.error "api down") ⟨"I have a cold", "en", none⟩ []).1.disclaimer = none
    ∧ (healthcare_consultation 4 true "gpt-4" (localBackend knowledge_base)
        (Except.error "api down") ⟨"I have a cold", "en", none⟩ []).1.assistant_response
          = some ""
    ∧ (healthcare_consultation 4 true "gpt-4" (localBackend knowledge_base)
        (Except.error "api down") ⟨"I have a cold", "en", none⟩ []).1.error = none := by
  decide

/-- C2 (amended): after a successful transcription the healthcare result
carries the fixed non-null disclaimer exactly when the generation stage
succeeds; when the generation backend raises, the caught-error response dict
has no disclaimer, so the result's `disclaimer` is null. -/
theorem C2_disclaimer_iff_generation_ok (W : Nat) (modelName : String) (use_rag : Bool)
    (backend : String → Nat → Except String (List RDoc)) (asr : ASRResult)
    (hist : List Turn) (htext : asr.text ≠ "") :
    (∀ resp : String,
        (healthcare_consultation W use_rag modelName backend (Except.ok resp) asr
            hist).1.disclaimer
          = some "For medical emergencies, contact emergency services immediately.")
    ∧ (∀ e : String,
        (healthcare_consultation W use_rag modelName backend (Except.error e) asr
            hist).1.disclaimer = none) := by
  constructor <;> intro x <;> cases use_rag <;>
    (unfold healthcare_consultation; rw [if_neg htext]; rfl)

/-- Witness for C2's amended statement at concrete inputs. -/
theorem C2_disclaimer_iff_generation_ok_witness :
    (healthcare_consultation 4 true "gpt-4" (localBackend knowledge_base)
        (Except.ok "Rest and hydrate") ⟨"I have a cold", "en", none⟩ []).1.disclaimer
      = some "For medical emergencies, contact emergency services immediately."
    ∧ (healthcare_consultation 4 true "gpt-4" (localBackend knowledge_base)
        (Except.error "api down") ⟨"I have a cold", "en", none⟩ []).1.disclaimer
      = none := by
  have h := C2_disclaimer_iff_generation_ok 4 "gpt-4" true (localBackend knowledge_base)
    ⟨"I have a cold", "en", none⟩ [] (by decide)
  exact ⟨h.1 "Rest and hydrate", h.2 "api down"⟩

/-- C3: in the healthcare flow, a symptom whose lowering contains
"chest pain" yields `is_emergency = some true` and the fixed emergency
alert string; the exact text "sore throat" yields `is_emergency = some false`
and no alert; the alert is present iff the flag is true; the flag is exactly
`_is_emergency` of the symptom, which is the case-insensitive
exact-substring match against the fixed emergency phrase list. -/
theorem C3_emergency_detection (W : Nat) (modelName : String)
    (backend : String → Nat → Except String (List RDoc)) (gen : Except String String)
    (hist : List Turn) (asr : ASRResult) (htext : asr.text ≠ "") :
    (strContains (strLower asr.text) "chest pain" = true →
        (healthcare_consultation W true modelName backend gen asr hist).1.is_emergency
            = some true
        ∧ (healthcare_consultation W true modelName backend gen asr hist).1.emergency_alert
            = some "CONTACT EMERGENCY SERVICES IMMEDIATELY")
    ∧ (∀ asr2 : ASRResult, asr2.text = "sore throat" →
        (healthcare_consultation W true modelName backend gen asr2 hist).1.is_emergency
            = some false
        ∧ (healthcare_consultation W true modelName backend gen asr2 hist).1.emergency_alert
            = none)
    ∧ ((healthcare_consultation W true modelName backend gen asr hist).1.emergency_alert
          = some "CONTACT EMERGENCY SERVICES IMMEDIATELY"
        ↔ (healthcare_consultation W true modelName backend gen asr hist).1.is_emergency
            = some true)
    ∧ (healthcare_consultation W true modelName backend gen asr hist).1.is_emergency
        = some (is_emergency_kw asr.text)
    ∧ (is_emergency_kw asr.text = true
        ↔ ∃ kw ∈ emergency_keywords, strContains (strLower asr.text) kw = true) := by
  refine ⟨?_, ?_, ?_, ?_, ?_⟩
  · intro hcp
    have hkw : is_emergency_kw asr.text = true := by
      simp [is_emergency_kw, emergency_keywords, hcp]
    rw [healthcare_consultation_success W modelName backend gen asr hist htext]
    simp [emergency_get_healthcare_context, hkw]
  · intro asr2 h2
    have htext2 : asr2.text ≠ "" := by rw [h2]; decide
    have hkw : is_emergency_kw asr2.text = false := by rw [h2]; decide
    rw [healthcare_consultation_success W modelName backend gen asr2 hist htext2]
    simp [emergency_get_healthcare_context, hkw]
  · rw [healthcare_consultation_success W modelName backend gen asr hist htext]
    simp only [emergency_get_healthcare_context]
    cases hkw : is_emergency_kw asr.text <;> simp [hkw]
  · rw [healthcare_consultation_success W modelName backend gen asr hist htext]
    simp [emergency_get_healthcare_context]
  · simp [is_emergency_kw, List.any_eq_true]

/-- Witness for C3 at concrete symptoms, one with mixed-case "chest pain"
and one with exactly "sore throat". -/
theorem C3_emergency_detection_witness :
    (healthcare_consultation 3 true "gpt-4" (localBackend knowledge_base) (Except.ok "r")
        ⟨"Severe CHEST Pain now", "en", none⟩ []).1.is_emergency = some true
    ∧ (healthcare_consultation 3 true "gpt-4" (localBackend knowledge_base) (Except.ok "r")
        ⟨"Severe CHEST Pain now", "en", none⟩ []).1.emergency_alert
        = some "CONTACT EMERGENCY SERVICES IMMEDIATELY"
    ∧ (healthcare_consultation 3 true "gpt-4" (localBackend knowledge_base) (Except.ok "r")
        ⟨"sore throat", "en", none⟩ []).1.is_emergency = some false
    ∧ (healthcare_consultation 3 true "gpt-4" (localBackend knowledge_base) (Except.ok "r")
        ⟨"sore throat", "en", none⟩ []).1.emergency_alert = none := by
  have h := C3_emergency_detection 3 "gpt-4" (localBackend knowledge_base) (Except.ok "r")
    [] ⟨"Severe CHEST Pain now", "en", none⟩ (by decide)
  have h1 := h.1 (by decide)
  have h2 := h.2.1 ⟨"sore throat", "en", none⟩ rfl
  exact ⟨h1.1, h1.2, h2.1, h2.2⟩

/-! ### Claim theorems about the general pipeline's degraded modes -/

theorem augment_prompt_of_empty (backend : String → Nat → Except String (List RDoc))
    (q input : String) (hret : retrieve_context backend q 3 = []) :
    augment_prompt backend q input = input := by
  unfold augment_prompt
  rw [hret]
  rfl

theorem retrieve_context_of_error (b : String → Nat → Except String (List RDoc))
    (q : String) (kk : Nat) (msg : String) (hb : b q kk = Except.error msg) :
    retrieve_context b q kk = [] := by
  unfold retrieve_context
  rw [hb]

/-- C7: when the retrieval stage raises (absorbed into an empty result) or
returns no documents, prompt augmentation returns its input unchanged, the
pipeline result and history are the same as with augmentation disabled,
generation is still invoked with the original unaugmented text, and the
pipeline does not fail when generation succeeds with a non-empty reply. -/
theorem C7_retrieval_degrades_gracefully (W : Nat) (modelName : String)
    (backend : String → Nat → Except String (List RDoc)) (gen : Except String String)
    (tts : TTSOutcome) (session_id audio_path tl : String) (use_tts : Bool)
    (asr : ASRResult) (hist : List Turn)
    (htext : asr.text ≠ "") (hret : retrieve_context backend asr.text 3 = []) :
    augment_prompt backend asr.text asr.text = asr.text
    ∧ (process_audio_file W true modelName backend gen tts session_id audio_path asr
        tl use_tts hist).1
      = (process_audio_file W false modelName backend gen tts session_id audio_path asr
        tl use_tts hist).1
    ∧ (process_audio_file W true modelName backend gen tts session_id audio_path asr
        tl use_tts hist).2.1
      = (process_audio_file W false modelName backend gen tts session_id audio_path asr
        tl use_tts hist).2.1
    ∧ StageEv.generation asr.text ∈ (process_audio_file W true modelName backend gen tts
        session_id audio_path asr tl use_tts hist).2.2
    ∧ (∀ resp : String, gen = Except.ok resp → resp ≠ "" →
        (process_audio_file W true modelName backend gen tts session_id audio_path asr
          tl use_tts hist).1.error = none)
    ∧ (∀ (b : String → Nat → Except String (List RDoc)) (q : String) (kk : Nat)
        (msg : String), b q kk = Except.error msg → retrieve_context b q kk = []) := by
  have haug := augment_prompt_of_empty backend asr.text asr.text hret
  refine ⟨haug, ?_, ?_, ?_, ?_, ?_⟩
  · cases use_tts <;> cases tts <;>
      (unfold process_audio_file; rw [if_neg htext, if_neg htext]; dsimp only;
       rw [haug]; split <;> rfl)
  · cases use_tts <;> cases tts <;>
      (unfold process_audio_file; rw [if_neg htext, if_neg htext]; dsimp only;
       rw [haug]; split <;> rfl)
  · cases use_tts <;> cases tts <;>
      (unfold process_audio_file; rw [if_neg htext]; dsimp only;
       rw [haug]; split <;> simp)
  · intro resp hgen hresp
    subst hgen
    cases use_tts <;> cases tts <;>
      (unfold process_audio_file; rw [if_neg htext]; dsimp only; rw [haug];
       split
       · rename_i h; exact absurd h hresp
       · rfl)
  · exact retrieve_context_of_error

/-- Witness for C7 with a raising retrieval backend at concrete inputs. -/
theorem C7_retrieval_degrades_gracefully_witness :
    augment_prompt (fun _ _ => Except.error "down") "hi" "hi" = "hi"
    ∧ StageEv.generation "hi" ∈ (process_audio_file 3 true "gpt-4"
        (fun _ _ => Except.error "down") (Except.ok "Hello!") TTSOutcome.success
        "abcd1234" "in.wav" ⟨"hi", "en", none⟩ "en" false []).2.2
    ∧ (process_audio_file 3 true "gpt-4" (fun _ _ => Except.error "down")
        (Except.ok "Hello!") TTSOutcome.success "abcd1234" "in.wav"
        ⟨"hi", "en", none⟩ "en" false []).1.error = none := by
  have h := C7_retrieval_degrades_gracefully 3 "gpt-4" (fun _ _ => Except.error "down")
    (Except.ok "Hello!") TTSOutcome.success "abcd1234" "in.wav" "en" false
    ⟨"hi", "en", none⟩ [] (by decide) rfl
  exact ⟨h.1, h.2.2.2.1, h.2.2.2.2.1 "Hello!" rfl (by decide)⟩

/-- C8: when synthesis was requested and fails while generation produced a
non-empty reply, the result still carries the reply in `ai_response`
together with the synthesis error in `tts_error`, no top-level `error`, and
no output-audio reference; moreover, for every input exactly one of
`ai_response` or `error` is set, and `output_audio` is present only when
synthesis was requested and succeeded. -/
theorem C8_synthesis_failure_nonfatal (W : Nat) (use_rag : Bool) (modelName : String)
    (backend : String → Nat → Except String (List RDoc)) (resp e : String)
    (session_id audio_path tl : String) (asr : ASRResult) (hist : List Turn)
    (htext : asr.text ≠ "") (hresp : resp ≠ "") :
    (process_audio_file W use_rag modelName backend (Except.ok resp)
        (TTSOutcome.failure e) session_id audio_path asr tl true hist).1.ai_response
      = some resp
    ∧ (process_audio_file W use_rag modelName backend (Except.ok resp)
        (TTSOutcome.failure e) session_id audio_path asr tl true hist).1.tts_error
      = some e
    ∧ (process_audio_file W use_rag modelName backend (Except.ok resp)
        (TTSOutcome.failure e) session_id audio_path asr tl true hist).1.error = none
    ∧ (process_audio_file W use_rag modelName backend (Except.ok resp)
        (TTSOutcome.failure e) session_id audio_path asr tl true hist).1.output_audio
      = none
    ∧ (∀ (asr2 : ASRResult) (gen : Except String String) (tts : TTSOutcome)
        (use_tts : Bool),
        ((process_audio_file W use_rag modelName backend gen tts session_id audio_path
            asr2 tl use_tts hist).1.error = none
          ∧ (process_audio_file W use_rag modelName backend gen tts session_id audio_path
            asr2 tl use_tts hist).1.ai_response ≠ none)
        ∨ ((process_audio_file W use_rag modelName backend gen tts session_id audio_path
            asr2 tl use_tts hist).1.error ≠ none
          ∧ (process_audio_file W use_rag modelName backend gen tts session_id audio_path
            asr2 tl use_tts hist).1.ai_response = none))
    ∧ (∀ (asr2 : ASRResult) (gen : Except String String) (tts : TTSOutcome)
        (use_tts : Bool),
        (process_audio_file W use_rag modelName backend gen tts session_id audio_path
            asr2 tl use_tts hist).1.output_audio ≠ none →
        use_tts = true ∧ tts = TTSOutcome.success) := by
  have hmain : ∀ P : PipelineResult → Prop,
      P { input_audio := some audio_path, transcribed_text := some asr.text,
          source_language := some asr.language, target_language := some tl,
          ai_response := some resp, conversation_id := some session_id,
          tts_error := some e } →
      P (process_audio_file W use_rag modelName backend (Except.ok resp)
          (TTSOutcome.failure e) session_id audio_path asr tl true hist).1 := by
    intro P hP
    cases use_rag <;>
      (unfold process_audio_file; rw [if_neg htext]; dsimp only;
       split
       · rename_i h; exact absurd h hresp
       · exact hP)
  refine ⟨hmain (fun r => r.ai_response = some resp) rfl,
    hmain (fun r => r.tts_error = some e) rfl,
    hmain (fun r => r.error = none) rfl,
    hmain (fun r => r.output_audio = none) rfl, ?_, ?_⟩
  · intro asr2 gen tts use_tts
    by_cases h2 : asr2.text = ""
    · right
      cases use_rag <;>
        (unfold process_audio_file; rw [if_pos h2]; exact ⟨by simp, rfl⟩)
    · cases gen with
      | ok r =>
          by_cases hr : r = ""
          · right
            cases use_rag <;> cases use_tts <;> cases tts <;>
              (unfold process_audio_file; rw [if_neg h2]; dsimp only;
               split
               · exact ⟨by simp, rfl⟩
               · rename_i h; exact absurd hr h)
          · left
            cases use_rag <;> cases use_tts <;> cases tts <;>
              (unfold process_audio_file; rw [if_neg h2]; dsimp only;
               split
               · rename_i h; exact absurd h hr
               · exact ⟨rfl, by simp⟩)
      | error msg =>
          right
          cases use_rag <;> cases use_tts <;> cases tts <;>
            (unfold process_audio_file; rw [if_neg h2]; dsimp only;
             split
             · exact ⟨by simp, rfl⟩
             · rename_i h; exact absurd rfl h)
  · intro asr2 gen tts use_tts hout
    by_cases h2 : asr2.text = ""
    · exfalso
      apply hout
      cases use_rag <;> (unfold process_audio_file; rw [if_pos h2])
    · cases use_tts with
      | false =>
          exfalso
          apply hout
          cases use_rag <;> cases tts <;>
            (unfold process_audio_file; rw [if_neg h2]; dsimp only;
             split <;> rfl)
      | true =>
          cases tts with
          | success => exact ⟨rfl, rfl⟩
          | failure msg =>
              exfalso
              apply hout
              cases use_rag <;>
                (unfold process_audio_file; rw [if_neg h2]; dsimp only;
                 split <;> rfl)

/-- Witness for C8 at concrete inputs with a failing synthesizer. -/
theorem C8_synthesis_failure_nonfatal_witness :
    (process_audio_file 3 true "gpt-4" (localBackend knowledge_base) (Except.ok "Hello!")
        (TTSOutcome.failure "azure error") "abcd1234" "in.wav" ⟨"hi", "en", none⟩
        "en" true []).1.ai_response = some "Hello!"
    ∧ (process_audio_file 3 true "gpt-4" (localBackend knowledge_base) (Except.ok "Hello!")
        (TTSOutcome.failure "azure error") "abcd1234" "in.wav" ⟨"hi", "en", none⟩
        "en" true []).1.tts_error = some "azure error"
    ∧ (process_audio_file 3 true "gpt-4" (localBackend knowledge_base) (Except.ok "Hello!")
        (TTSOutcome.failure "azure error") "abcd1234" "in.wav" ⟨"hi", "en", none⟩
        "en" true []).1.error = none := by
  have h := C8_synthesis_failure_nonfatal 3 true "gpt-4" (localBackend knowledge_base)
    "Hello!" "azure error" "abcd1234" "in.wav" "en" ⟨"hi", "en", none⟩ []
    (by decide) (by decide)
  exact ⟨h.1, h.2.1, h.2.2.1⟩

/-! ### Retrieval scoring: helper lemmas and the refinement to the spec -/

/-- Spec 4.4, stated from its words: the score of a document is the count of
query words (case-insensitive, whitespace-split) that occur as a substring
anywhere in the lowered concatenation of the document's query hint and
content. -/
def spec_word_score (query : String) (doc : KBDoc) : Nat :=
  (pySplitWs (strLower query)).countP
    (fun w => strContains (strLower (doc.query ++ " " ++ doc.content)) w)

theorem foldl_count (p : String → Bool) :
    ∀ (l : List String) (n : Nat),
      l.foldl (fun score word => if p word then score + 1 else score) n
        = n + l.countP p := by
  intro l
  induction l with
  | nil => intro n; simp
  | cons w l ih =>
      intro n
      rw [List.foldl_cons, List.countP_cons, ih]
      cases hp : p w <;> simp [hp] <;> omega

theorem docScore_eq_spec (query : String) (doc : KBDoc) :
    docScore (strLower query) (strLower (doc.query ++ " " ++ doc.content))
      = spec_word_score query doc := by
  unfold docScore spec_word_score
  rw [foldl_count]
  simp

instance : IsTotal RDoc scoreDescOrder :=
  ⟨fun a b => (Nat.le_total a.score b.score).symm⟩

instance : IsTrans RDoc scoreDescOrder :=
  ⟨fun _ _ _ hab hbc => Nat.le_trans hbc hab⟩

theorem perm_sortByScoreDesc (l : List RDoc) : List.Perm (sortByScoreDesc l) l :=
  List.perm_insertionSort scoreDescOrder l

theorem sorted_sortByScoreDesc (l : List RDoc) :
    List.Sorted scoreDescOrder (sortByScoreDesc l) :=
  List.sorted_insertionSort scoreDescOrder l

theorem filter_orderedInsert_score (s : Nat) (x : RDoc) :
    ∀ l : List RDoc,
      (List.orderedInsert scoreDescOrder x l).filter (fun r => r.score == s)
        = if x.score = s
          then x :: l.filter (fun r => r.score == s)
          else l.filter (fun r => r.score == s) := by
  intro l
  induction l with
  | nil =>
      by_cases hx : x.score = s <;>
        simp [List.orderedInsert, List.filter_cons, List.filter_nil, hx]
  | cons y l ih =>
      by_cases hxy : scoreDescOrder x y
      · rw [List.orderedInsert, if_pos hxy]
        by_cases hx : x.score = s <;> by_cases hy : y.score = s <;>
          simp [List.filter_cons, hx, hy]
      · rw [List.orderedInsert, if_neg hxy]
        unfold scoreDescOrder at hxy
        by_cases hx : x.score = s <;> by_cases hy : y.score = s
        · exfalso; omega
        · simp [List.filter_cons, hx, hy, ih]
        · simp [List.filter_cons, hx, hy, ih]
        · simp [List.filter_cons, hx, hy, ih]

theorem filter_sortByScoreDesc (s : Nat) (l : List RDoc) :
    (sortByScoreDesc l).filter (fun r => r.score == s)
      = l.filter (fun r => r.score == s) := by
  induction l with
  | nil => rfl
  | cons x l ih =>
      unfold sortByScoreDesc at ih ⊢
      rw [List.insertionSort, filter_orderedInsert_score]
      by_cases hx : x.score = s <;> simp [List.filter_cons, hx, ih]

theorem mem_retrieve_from_local (kb : List KBDoc) (q : String) (k : Nat) (r : RDoc)
    (h : r ∈ retrieve_from_local kb q k) :
    0 < r.score ∧ ∃ d ∈ kb, scored q d = some r := by
  unfold retrieve_from_local at h
  have h1 : r ∈ sortByScoreDesc (kb.filterMap (scored q)) := List.mem_of_mem_take h
  have h2 : r ∈ kb.filterMap (scored q) := (perm_sortByScoreDesc _).mem_iff.mp h1
  obtain ⟨d, hd, hs⟩ := List.mem_filterMap.mp h2
  refine ⟨?_, d, hd, hs⟩
  unfold scored at hs
  dsimp only at hs
  split at hs
  · rename_i hpos
    cases hs
    simpa using hpos
  · cases hs

theorem scored_empty_query (d : KBDoc) : scored "" d = none := rfl

theorem retrieve_from_local_empty_query (kb : List KBDoc) (k : Nat) :
    retrieve_from_local kb "" k = [] := by
  unfold retrieve_from_local
  rw [List.filterMap_eq_nil_iff.mpr (fun d _ => scored_empty_query d)]
  rw [show sortByScoreDesc [] = [] from rfl, List.take_nil]

/-- C9: the local retrieval scoring refines spec 4.4 — each document's score
is the count of case-insensitive whitespace-split query words occurring as
substrings of the lowered query-hint-plus-content text; zero-score documents
are excluded; the remainder is ordered by descending score with ties keeping
original insertion order (a stable sort: its filtration at every score value
equals the unsorted filtration); the first `top_k` are returned; and the
function is total, returning the empty list for an empty query or an empty
document set, with the `retrieve_context` wrapper adding nothing on the
local backend. -/
theorem C9_retrieval_scoring (kb : List KBDoc) (query : String) (k : Nat) :
    (∀ d : KBDoc,
        docScore (strLower query) (strLower (d.query ++ " " ++ d.content))
          = spec_word_score query d)
    ∧ (∀ d : KBDoc, scored query d
        = if 0 < spec_word_score query d
          then some ⟨d.id, d.content, spec_word_score query d⟩ else none)
    ∧ retrieve_from_local kb query k
        = (sortByScoreDesc (kb.filterMap (scored query))).take k
    ∧ List.Sorted scoreDescOrder (sortByScoreDesc (kb.filterMap (scored query)))
    ∧ List.Perm (sortByScoreDesc (kb.filterMap (scored query))) (kb.filterMap (scored query))
    ∧ (∀ s : Nat,
        (sortByScoreDesc (kb.filterMap (scored query))).filter (fun r => r.score == s)
          = (kb.filterMap (scored query)).filter (fun r => r.score == s))
    ∧ (∀ r ∈ retrieve_from_local kb query k,
        0 < r.score ∧ ∃ d ∈ kb, scored query d = some r)
    ∧ retrieve_from_local kb "" k = []
    ∧ retrieve_from_local [] query k = []
    ∧ retrieve_context (localBackend kb) query k = retrieve_from_local kb query k := by
  refine ⟨docScore_eq_spec query, ?_, rfl, sorted_sortByScoreDesc _, perm_sortByScoreDesc _,
    fun s => filter_sortByScoreDesc s _, mem_retrieve_from_local kb query k,
    retrieve_from_local_empty_query kb k, ?_, rfl⟩
  case refine_2 =>
    unfold retrieve_from_local
    rw [show (List.filterMap (scored query) ([] : List KBDoc)) = [] from rfl]
    rw [show sortByScoreDesc [] = [] from rfl, List.take_nil]
  intro d
  unfold scored
  dsimp only
  rw [docScore_eq_spec]

/-- Witness for C9 at the concrete knowledge base with the query
"fever headache" (and a membership instance for the top result). -/
theorem C9_retrieval_scoring_witness :
    retrieve_from_local knowledge_base "" 3 = []
    ∧ retrieve_from_local ([] : List KBDoc) "fever headache" 3 = []
    ∧ (0 < (⟨1, "High temperature, body aches, fatigue. Drink water, rest, consult doctor if >103°F", 1⟩ : RDoc).score
        ∧ ∃ d ∈ knowledge_base, scored "fever headache" d
            = some ⟨1, "High temperature, body aches, fatigue. Drink water, rest, consult doctor if >103°F", 1⟩) := by
  have h := C9_retrieval_scoring knowledge_base "fever headache" 3
  refine ⟨h.2.2.2.2.2.2.2.1, (C9_retrieval_scoring [] "fever headache" 3).2.2.2.2.2.2.2.2.1, ?_⟩
  exact h.2.2.2.2.2.2.1
    ⟨1, "High temperature, body aches, fatigue. Drink water, rest, consult doctor if >103°F", 1⟩
    (by decide)

end Team33
